import Mathlib

/-!
Shallow embedding of `src/app.py` (musifyx-api-flask): a Flask service with
three download endpoints (song, album, playlist) over an external Deezer
download provider.  Pure string helpers are translated directly; the
filesystem side effects of the provider and of cleanup are modelled by
explicit state (an environment describing what the provider wrote, and a
small filesystem model for the cleanup callbacks).  Python strings are
modelled as Lean `String` (lists of Unicode scalar values).
-/

namespace Musifyx

/-- The character class of the regex `[<>:"/\\|?*]` in `sanitize_filename`
(`src/app.py` line 26). -/
def forbiddenChars : List Char := ['<', '>', ':', '\"', '/', '\\', '|', '?', '*']

/-- Models Python `re.sub` with a single-character class and a
single-character replacement: every character belonging to the class is
replaced, all other characters are kept. -/
def reSubClass (cls : List Char) (rep : Char) : List Char → List Char
  | [] => []
  | c :: cs => (if c ∈ cls then rep else c) :: reSubClass cls rep cs

/-- `sanitize_filename` (`src/app.py` lines 24-27):
`re.sub(r'[<>:"/\\|?*]', '_', filename)`. -/
def sanitize_filename (filename : String) : String :=
  ⟨reSubClass forbiddenChars '_' filename.data⟩

/-- Whether a string matches the regular expression `^[0-9]+$`:
nonempty and all characters are ASCII digits. -/
def regexAllDigits (s : String) : Bool :=
  !(s.data.isEmpty) && s.data.all (fun c => decide ('0' ≤ c) && decide (c ≤ '9'))

/-- Character-level model of Python `str.isdigit`: true exactly on code
points whose Unicode `Numeric_Type` is `Decimal` or `Digit`.  We enumerate
the ASCII digits, the Latin-1 superscripts, the superscript/subscript
blocks, and the decimal-digit ranges of a few common scripts
(Arabic-Indic, extended Arabic-Indic, Devanagari, fullwidth).  Digits of
scripts outside this list are omitted; the model is faithful on every code
point this development evaluates. -/
def pyCharIsDigit (c : Char) : Bool :=
  (decide ('0' ≤ c) && decide (c ≤ '9'))
  || c = '¹' || c = '²' || c = '³'
  || c = '⁰' || (decide ('⁴' ≤ c) && decide (c ≤ '⁹'))
  || (decide ('₀' ≤ c) && decide (c ≤ '₉'))
  || (decide ('٠' ≤ c) && decide (c ≤ '٩'))
  || (decide ('۰' ≤ c) && decide (c ≤ '۹'))
  || (decide ('०' ≤ c) && decide (c ≤ '९'))
  || (decide ('０' ≤ c) && decide (c ≤ '９'))

/-- Models Python `str.isdigit` (used as `id.isdigit()` in all three
handlers): true iff the string is nonempty and every character satisfies
`pyCharIsDigit`. -/
def pyIsDigit (s : String) : Bool :=
  !(s.data.isEmpty) && s.data.all pyCharIsDigit

/-- Drops `xs` from the front of `ys`; `none` when `xs` is not a front
segment of `ys`. -/
def dropFront : List Char → List Char → Option (List Char)
  | [], ys => some ys
  | _ :: _, [] => none
  | x :: xs, y :: ys => if x = y then dropFront xs ys else none

/-- Models `os.path.join(a, b)` for the uses in `src/app.py`: `a` is an
absolute directory without a trailing separator and `b` is relative. -/
def pathJoin (a b : String) : String := a ++ ("/") ++ b

/-- Models `os.path.relpath(p, start)` for the in-scope case where `p`
lies strictly under `start` (both normalized, no dot segments): the suffix
of `p` after `start ++ "/"`; `p` itself otherwise. -/
def relpath (p start : String) : String :=
  match dropFront (start.data ++ ['/']) p.data with
  | some rest => ⟨rest⟩
  | none => p

/-- Models `os.path.basename`: the part after the last `/`. -/
def basename (p : String) : String :=
  ⟨(p.data.reverse.takeWhile (fun c => c ≠ '/')).reverse⟩

/-- Models `os.path.splitext(name)[0]` for a name without path
separators (the code applies it to a `basename` result): split at the last
dot, unless every character before that dot is itself a dot, in which case
the name is returned whole. -/
def splitext_root (name : String) : String :=
  let rev := name.data.reverse
  let ext := rev.takeWhile (fun c => c ≠ '.')
  match rev.drop ext.length with
  | [] => name
  | _ :: rootRev =>
    if rootRev.reverse.all (fun c => c = '.') then name else ⟨rootRev.reverse⟩

/-- An HTTP outcome of a handler: a JSON error body `{error: msg}` with a
status code (`jsonify({'error': ...}), code`), or a successful
`send_file(path, as_attachment=True, download_name, mimetype)`. -/
inductive Resp where
  | json (status : Nat) (errorMsg : String)
  | file (path : String) (downloadName : String) (mimetype : String)
deriving DecidableEq

/-- One file found by `os.walk(temp_dir)`: the directory containing it,
as a path relative to `temp_dir` (`""` for `temp_dir` itself), and its
bare file name.  `os.path.join(root, file)` in the walk loop equals
`temp_dir ++ "/" ++ rel` for the corresponding entry. -/
structure WalkEntry where
  subdir : String
  fname : String
deriving DecidableEq

/-- The path of a walk entry relative to `temp_dir`. -/
def WalkEntry.rel (e : WalkEntry) : String :=
  if e.subdir = ("") then e.fname else e.subdir ++ ("/") ++ e.fname

/-- The request-scoped external world of one handler run: the path
returned by `tempfile.mkdtemp()`, whether the provider call raises (and
with what message), the files the provider wrote under `temp_dir` in
`os.walk` order, and whether `os.rename` raises (and with what message).
Zip-archive writing is modelled as always succeeding; its failure modes
are outside the scope of this development. -/
structure Env where
  temp_dir : String
  providerRaises : Option String
  walk : List WalkEntry
  renameRaises : Option String
deriving DecidableEq

/-- The observable outcome of one handler run: the HTTP response,
whether a temporary directory was created, whether the provider was
invoked, and the `(file_path, arcname)` pairs written into the zip
archive (empty for the song handler and on error paths). -/
structure HandlerResult where
  resp : Resp
  tempDirCreated : Bool
  providerCalled : Bool
  zipEntries : List (String × String)
deriving DecidableEq

/-- `allowed_qualities` (`src/app.py` lines 39, 132, 214). -/
def allowed_qualities : List String := [("MP3_128"), ("MP3_320"), ("FLAC")]

/-- Python `repr` of a list of strings, as rendered into the f-string
`f'Calidad no válida. Opciones permitidas: {allowed_qualities}'`. -/
def pyReprStrList (xs : List String) : String :=
  ("[") ++ String.intercalate (", ") (xs.map (fun s => ("\x27") ++ s ++ ("\x27"))) ++ ("]")

/-- The 400 body produced for an out-of-set quality value, identical in
the three handlers. -/
def invalidQualityMsg : String :=
  ("Calidad no válida. Opciones permitidas: ") ++ pyReprStrList allowed_qualities

/-- Models Python `str.endswith` with a single suffix: `suff` is a
suffix of `s`. -/
def strEndsWith (s suff : String) : Bool :=
  (dropFront suff.data.reverse s.data.reverse).isSome

/-- The audio filter of the `os.walk` collection loop:
`file.endswith(('.mp3', '.flac'))`. -/
def isAudioName (f : String) : Bool :=
  strEndsWith f (".mp3") || strEndsWith f (".flac")

/-- The `os.walk` collection loop shared verbatim by the three handlers
(`src/app.py` lines 64-68, 157-161, 239-243): every file under `temp_dir`
whose name ends in `.mp3` or `.flac`, as `os.path.join(root, file)`, in
walk order. -/
def collectAudio (env : Env) : List String :=
  (env.walk.filter (fun e => isAudioName e.fname)).map
    (fun e => pathJoin env.temp_dir e.rel)

/-- `download_song` (`src/app.py` lines 29-120).  `qualityParam` is the
raw `quality` query parameter (`none` when absent); the body runs inside
`try/except Exception`, whose handler returns 500 with
`'Error al descargar la canción: ' + str(e)`. -/
def download_song (env : Env) (id : String) (qualityParam : Option String) : HandlerResult :=
  let quality := qualityParam.getD ("MP3_320")
  if !(allowed_qualities.contains quality) then
    { resp := Resp.json 400 invalidQualityMsg,
      tempDirCreated := false, providerCalled := false, zipEntries := [] }
  else if !(pyIsDigit id) then
    { resp := Resp.json 400 ("ID de canción inválido"),
      tempDirCreated := false, providerCalled := false, zipEntries := [] }
  else
    match env.providerRaises with
    | some e =>
      { resp := Resp.json 500 (("Error al descargar la canción: ") ++ e),
        tempDirCreated := true, providerCalled := true, zipEntries := [] }
    | none =>
      match collectAudio env with
      | [] =>
        { resp := Resp.json 500 ("No se encontró el archivo descargado"),
          tempDirCreated := true, providerCalled := true, zipEntries := [] }
      | audio_file :: _ =>
        let original_filename := basename audio_file
        let base_name := splitext_root original_filename
        let sanitized_name := sanitize_filename base_name
        let new_filename :=
          sanitized_name ++ (".") ++ (if quality = ("FLAC") then ("flac") else ("mp3"))
        let new_filepath := pathJoin env.temp_dir new_filename
        let renamed : Except String String :=
          if audio_file ≠ new_filepath then
            match env.renameRaises with
            | some e => Except.error e
            | none => Except.ok new_filepath
          else Except.ok audio_file
        match renamed with
        | Except.error e =>
          { resp := Resp.json 500 (("Error al descargar la canción: ") ++ e),
            tempDirCreated := true, providerCalled := true, zipEntries := [] }
        | Except.ok payload =>
          { resp := Resp.file payload new_filename
              (if quality ≠ ("FLAC") then ("audio/mpeg") else ("audio/flac")),
            tempDirCreated := true, providerCalled := true, zipEntries := [] }

/-- `download_album` (`src/app.py` lines 122-202).  The zip archive
`album_{id}.zip` is written at `os.path.join(temp_dir, ...)` after
discovery; each discovered file is added with
`arcname = os.path.relpath(file_path, temp_dir)`. -/
def download_album (env : Env) (id : String) (qualityParam : Option String) : HandlerResult :=
  let quality := qualityParam.getD ("MP3_320")
  if !(allowed_qualities.contains quality) then
    { resp := Resp.json 400 invalidQualityMsg,
      tempDirCreated := false, providerCalled := false, zipEntries := [] }
  else if !(pyIsDigit id) then
    { resp := Resp.json 400 ("ID de álbum inválido"),
      tempDirCreated := false, providerCalled := false, zipEntries := [] }
  else
    match env.providerRaises with
    | some e =>
      { resp := Resp.json 500 (("Error al descargar el álbum: ") ++ e),
        tempDirCreated := true, providerCalled := true, zipEntries := [] }
    | none =>
      let audio_files := collectAudio env
      if audio_files.isEmpty then
        { resp := Resp.json 500 ("No se encontraron archivos descargados"),
          tempDirCreated := true, providerCalled := true, zipEntries := [] }
      else
        let zip_path := pathJoin env.temp_dir (("album_") ++ id ++ (".zip"))
        { resp := Resp.file zip_path (("album_") ++ id ++ (".zip")) ("application/zip"),
          tempDirCreated := true, providerCalled := true,
          zipEntries := audio_files.map (fun fp => (fp, relpath fp env.temp_dir)) }

/-- `download_playlist` (`src/app.py` lines 204-284): identical to
`download_album` except for the resource label in URLs, messages and the
archive name. -/
def download_playlist (env : Env) (id : String) (qualityParam : Option String) : HandlerResult :=
  let quality := qualityParam.getD ("MP3_320")
  if !(allowed_qualities.contains quality) then
    { resp := Resp.json 400 invalidQualityMsg,
      tempDirCreated := false, providerCalled := false, zipEntries := [] }
  else if !(pyIsDigit id) then
    { resp := Resp.json 400 ("ID de playlist inválido"),
      tempDirCreated := false, providerCalled := false, zipEntries := [] }
  else
    match env.providerRaises with
    | some e =>
      { resp := Resp.json 500 (("Error al descargar la playlist: ") ++ e),
        tempDirCreated := true, providerCalled := true, zipEntries := [] }
    | none =>
      let audio_files := collectAudio env
      if audio_files.isEmpty then
        { resp := Resp.json 500 ("No se encontraron archivos descargados"),
          tempDirCreated := true, providerCalled := true, zipEntries := [] }
      else
        let zip_path := pathJoin env.temp_dir (("playlist_") ++ id ++ (".zip"))
        { resp := Resp.file zip_path (("playlist_") ++ id ++ (".zip")) ("application/zip"),
          tempDirCreated := true, providerCalled := true,
          zipEntries := audio_files.map (fun fp => (fp, relpath fp env.temp_dir)) }

/-- A small filesystem model for the cleanup callbacks: the set of
regular files and the set of directories, each as a list of absolute
paths. -/
structure Fs where
  files : List String
  dirs : List String
deriving DecidableEq

/-- Whether path `p` lies strictly under directory `d`. -/
def isUnder (d p : String) : Bool :=
  (dropFront (d.data ++ ['/']) p.data).isSome

/-- Models `os.remove(p)`: raises when `p` is not an existing regular
file, otherwise deletes it. -/
def os_remove (fs : Fs) (p : String) : Except String Fs :=
  if fs.files.contains p then
    Except.ok ⟨fs.files.filter (fun q => q ≠ p), fs.dirs⟩
  else Except.error (("No such file: ") ++ p)

/-- Models `os.rmdir(d)`: raises when `d` does not exist or is not
empty, otherwise deletes the directory. -/
def os_rmdir (fs : Fs) (d : String) : Except String Fs :=
  if !(fs.dirs.contains d) then Except.error (("No such directory: ") ++ d)
  else if fs.files.any (fun p => isUnder d p) || fs.dirs.any (fun p => isUnder d p) then
    Except.error (("Directory not empty: ") ++ d)
  else Except.ok ⟨fs.files, fs.dirs.filter (fun q => q ≠ d)⟩

/-- Models `shutil.rmtree(d)`: raises when `d` does not exist, otherwise
deletes `d` and everything under it. -/
def shutil_rmtree (fs : Fs) (d : String) : Except String Fs :=
  if fs.dirs.contains d then
    Except.ok ⟨fs.files.filter (fun p => !(isUnder d p)),
               fs.dirs.filter (fun q => q ≠ d && !(isUnder d q))⟩
  else Except.error (("No such directory: ") ++ d)

/-- The `remove_file` cleanup callback of `download_song`
(`src/app.py` lines 106-114): inside `try`, `os.remove(audio_file)` then
`os.rmdir(temp_dir)`; any exception is caught, logged, and swallowed; the
callback returns `response`.  A raise in the first call skips the second,
exactly as in the `try` block. -/
def remove_file (fs : Fs) (audio_file temp_dir : String) (response : Resp) : Fs × Resp :=
  match os_remove fs audio_file with
  | Except.error _ => (fs, response)
  | Except.ok fs1 =>
    match os_rmdir fs1 temp_dir with
    | Except.error _ => (fs1, response)
    | Except.ok fs2 => (fs2, response)

/-- The `remove_files` cleanup callback of `download_album` and
`download_playlist` (`src/app.py` lines 187-196, 269-278): inside `try`,
`os.remove(zip_path)` then `shutil.rmtree(temp_dir)`; any exception is
caught, logged, and swallowed; the callback returns `response`. -/
def remove_files (fs : Fs) (zip_path temp_dir : String) (response : Resp) : Fs × Resp :=
  match os_remove fs zip_path with
  | Except.error _ => (fs, response)
  | Except.ok fs1 =>
    match shutil_rmtree fs1 temp_dir with
    | Except.error _ => (fs1, response)
    | Except.ok fs2 => (fs2, response)

/-- A concrete environment: provider succeeds and writes one top-level
audio file. -/
def envOneSong : Env :=
  { temp_dir := ("/tmp/t0"), providerRaises := none,
    walk := [⟨("") , ("Song.mp3")⟩], renameRaises := none }

/-- A concrete environment: provider succeeds but writes no audio file,
only a cover image. -/
def envNoAudio : Env :=
  { temp_dir := ("/tmp/t1"), providerRaises := none,
    walk := [⟨("") , ("cover.jpg")⟩], renameRaises := none }

/-- A concrete environment: provider succeeds and writes three audio
files across nested subdirectories, plus one non-audio file. -/
def envAlbum : Env :=
  { temp_dir := ("/tmp/t2"), providerRaises := none,
    walk := [⟨("") , ("cover.jpg")⟩,
             ⟨("Artist - Album") , ("01 - One.mp3")⟩,
             ⟨("Artist - Album") , ("02 - Two.mp3")⟩,
             ⟨("Artist - Album/CD2") , ("01 - Three.flac")⟩],
    renameRaises := none }

/-- A concrete environment: provider succeeds and writes one audio file
whose actual extension is `.mp3`, named with characters the sanitizer
rewrites. -/
def envMessy : Env :=
  { temp_dir := ("/tmp/t3"), providerRaises := none,
    walk := [⟨("") , ("Song: Live?.mp3")⟩], renameRaises := none }

/-! ## Helper lemmas -/

theorem dropFront_append (xs ys : List Char) : dropFront xs (xs ++ ys) = some ys := by
  induction xs with
  | nil => rfl
  | cons x xs ih => simp [dropFront, ih]

theorem relpath_pathJoin (t r : String) : relpath (pathJoin t r) t = r := by
  unfold relpath pathJoin
  have h : (t ++ ("/") ++ r).data = (t.data ++ ['/']) ++ r.data := by
    rw [String.data_append, String.data_append]
  rw [h, dropFront_append]

theorem filter_eq_nil_of_not {α : Type} (l : List α) (p : α → Bool)
    (h : ∀ e ∈ l, p e = false) : l.filter p = [] := by
  induction l with
  | nil => rfl
  | cons x xs ih =>
    have hx := h x (by simp)
    rw [List.filter_cons]
    simp only [hx, Bool.false_eq_true, if_false]
    exact ih (fun e he => h e (by simp [he]))

theorem reSubClass_eq_map (cls : List Char) (rep : Char) (l : List Char) :
    reSubClass cls rep l = l.map (fun c => if c ∈ cls then rep else c) := by
  induction l with
  | nil => rfl
  | cons c cs ih => simp [reSubClass, ih]

theorem reSubClass_idem (cls : List Char) (rep : Char) (hrep : rep ∉ cls) (l : List Char) :
    reSubClass cls rep (reSubClass cls rep l) = reSubClass cls rep l := by
  induction l with
  | nil => rfl
  | cons c cs ih =>
    by_cases hc : c ∈ cls
    · simp [reSubClass, hc, hrep, ih]
    · simp [reSubClass, hc, ih]

theorem reSubClass_length (cls : List Char) (rep : Char) (l : List Char) :
    (reSubClass cls rep l).length = l.length := by
  induction l with
  | nil => rfl
  | cons c cs ih => simp [reSubClass, ih]

theorem mem_reSubClass_not_mem (cls : List Char) (rep : Char) (hrep : rep ∉ cls)
    (l : List Char) : ∀ c ∈ reSubClass cls rep l, c ∉ cls := by
  induction l with
  | nil =>
    intro c hc
    cases hc
  | cons d ds ih =>
    intro c hc
    rw [reSubClass] at hc
    rcases List.mem_cons.mp hc with h1 | h2
    · subst h1
      by_cases hd : d ∈ cls
      · simp only [if_pos hd]
        exact hrep
      · simp only [if_neg hd]
        exact hd
    · exact ih c h2

/-! ## Claims -/

/-- C2 (confirmed): a request with the quality query parameter absent
proceeds with the default standard quality tier (provider token
`MP3_320`) and behaves identically — same response, same effects — to a
request passing that tier explicitly, on all three endpoints. -/
theorem claim2_absent_quality_defaults (env : Env) (id : String) :
    download_song env id none = download_song env id (some ("MP3_320")) ∧
    download_album env id none = download_album env id (some ("MP3_320")) ∧
    download_playlist env id none = download_playlist env id (some ("MP3_320")) :=
  ⟨rfl, rfl, rfl⟩

/-- C5 (confirmed): `sanitize_filename` replaces each occurrence of each
of the characters in the class with an underscore, leaves every other
character unchanged, and is idempotent. -/
theorem claim5_sanitize_replaces_and_idem (s : String) :
    (sanitize_filename s).data =
      s.data.map (fun c => if c ∈ forbiddenChars then '_' else c) ∧
    sanitize_filename (sanitize_filename s) = sanitize_filename s := by
  constructor
  · exact reSubClass_eq_map forbiddenChars '_' s.data
  · show (⟨reSubClass forbiddenChars '_' (reSubClass forbiddenChars '_' s.data)⟩ : String) =
      ⟨reSubClass forbiddenChars '_' s.data⟩
    rw [reSubClass_idem forbiddenChars '_' (by decide) s.data]

/-- C10 (confirmed): `sanitize_filename` preserves the length of its
input, its output contains none of the forbidden characters, and (being a
Lean function) it is a deterministic total function of its argument. -/
theorem claim10_sanitize_length_clean (s : String) :
    (sanitize_filename s).length = s.length ∧
    ∀ c ∈ (sanitize_filename s).data, c ∉ forbiddenChars := by
  constructor
  · show (reSubClass forbiddenChars '_' s.data).length = s.data.length
    exact reSubClass_length forbiddenChars '_' s.data
  · exact mem_reSubClass_not_mem forbiddenChars '_' (by decide) s.data

/-- C8 (confirmed): the cleanup callbacks attached after streaming catch
any exception raised while removing the payload file and the work
directory, and return the response unchanged, so a cleanup failure never
alters the committed HTTP outcome. -/
theorem claim8_cleanup_never_changes_response (fs : Fs)
    (audio_file zip_path temp_dir : String) (response : Resp) :
    (remove_file fs audio_file temp_dir response).2 = response ∧
    (remove_files fs zip_path temp_dir response).2 = response := by
  constructor
  · unfold remove_file
    split
    · rfl
    · split <;> rfl
  · unfold remove_files
    split
    · rfl
    · split <;> rfl

/-- C1 (corrected, counterexample): the claim as stated is false.  The
handlers validate the id with Python `str.isdigit`, not with the regex
`^[0-9]+$`: the id `"²"` (superscript two, U+00B2) does not match
`^[0-9]+$`, yet `str.isdigit` accepts it, so the song endpoint, given the
valid quality `MP3_320`, proceeds past validation — it invokes the
provider and does not return the 400 InvalidId body. -/
theorem claim1_counterexample :
    regexAllDigits ("²") = false ∧
    pyIsDigit ("²") = true ∧
    (download_song envOneSong ("²") (some ("MP3_320"))).resp ≠
      Resp.json 400 ("ID de canción inválido") ∧
    (download_song envOneSong ("²") (some ("MP3_320"))).providerCalled = true := by
  decide

/-- C1 (corrected, amended): for every resource id string rejected by
Python `str.isdigit` — which includes every ASCII-only string not
matching `^[0-9]+$`, but not strings of non-ASCII Unicode digits — each
of the three download endpoints returns HTTP 400 with its InvalidId JSON
error body, given a valid (or absent) quality parameter. -/
theorem claim1_amended (env : Env) (id : String) (qp : Option String)
    (hq : allowed_qualities.contains (qp.getD ("MP3_320")) = true)
    (hid : pyIsDigit id = false) :
    (download_song env id qp).resp = Resp.json 400 ("ID de canción inválido") ∧
    (download_album env id qp).resp = Resp.json 400 ("ID de álbum inválido") ∧
    (download_playlist env id qp).resp = Resp.json 400 ("ID de playlist inválido") := by
  have hq1 : qp.getD ("MP3_320") ∈ allowed_qualities := by simpa using hq
  unfold download_song download_album download_playlist
  simp [hq1, hid]

/-- Witness for `claim1_amended` at id `"abc"` and quality `FLAC`. -/
theorem claim1_witness :
    (download_song envOneSong ("abc") (some ("FLAC"))).resp =
      Resp.json 400 ("ID de canción inválido") ∧
    (download_album envOneSong ("abc") (some ("FLAC"))).resp =
      Resp.json 400 ("ID de álbum inválido") ∧
    (download_playlist envOneSong ("abc") (some ("FLAC"))).resp =
      Resp.json 400 ("ID de playlist inválido") :=
  claim1_amended envOneSong ("abc") (some ("FLAC")) (by decide) (by decide)

/-- C3 (confirmed): for every provided quality value outside
`{MP3_128, MP3_320, FLAC}` (compared case-sensitively, as string
equality), each of the three download endpoints returns HTTP 400 with the
InvalidQuality JSON error body, creates no temporary directory, makes no
provider call, and writes no zip entries — for every id and every
environment. -/
theorem claim3_invalid_quality_rejected_early (q : String)
    (hq : allowed_qualities.contains q = false) (env : Env) (id : String) :
    download_song env id (some q) =
      { resp := Resp.json 400 invalidQualityMsg, tempDirCreated := false,
        providerCalled := false, zipEntries := [] } ∧
    download_album env id (some q) =
      { resp := Resp.json 400 invalidQualityMsg, tempDirCreated := false,
        providerCalled := false, zipEntries := [] } ∧
    download_playlist env id (some q) =
      { resp := Resp.json 400 invalidQualityMsg, tempDirCreated := false,
        providerCalled := false, zipEntries := [] } := by
  have hq1 : q ∉ allowed_qualities := by simpa using hq
  unfold download_song download_album download_playlist
  simp [hq1]

/-- Witness for `claim3_invalid_quality_rejected_early` at the
lowercase value `"mp3_320"`, which differs from `MP3_320` only in case. -/
theorem claim3_witness :
    download_song envOneSong ("42") (some ("mp3_320")) =
      { resp := Resp.json 400 invalidQualityMsg, tempDirCreated := false,
        providerCalled := false, zipEntries := [] } ∧
    download_album envOneSong ("42") (some ("mp3_320")) =
      { resp := Resp.json 400 invalidQualityMsg, tempDirCreated := false,
        providerCalled := false, zipEntries := [] } ∧
    download_playlist envOneSong ("42") (some ("mp3_320")) =
      { resp := Resp.json 400 invalidQualityMsg, tempDirCreated := false,
        providerCalled := false, zipEntries := [] } :=
  claim3_invalid_quality_rejected_early ("mp3_320") (by decide) envOneSong ("42")

/-- C4 (confirmed): whenever the provider call returns without raising
but wrote no file ending in `.mp3` or `.flac` under the work directory,
each endpoint returns HTTP 500 with its NoArtifacts JSON error body. -/
theorem claim4_no_artifacts_is_500 (env : Env) (id : String) (qp : Option String)
    (hq : allowed_qualities.contains (qp.getD ("MP3_320")) = true)
    (hid : pyIsDigit id = true)
    (hp : env.providerRaises = none)
    (hw : ∀ e ∈ env.walk, isAudioName e.fname = false) :
    (download_song env id qp).resp =
      Resp.json 500 ("No se encontró el archivo descargado") ∧
    (download_album env id qp).resp =
      Resp.json 500 ("No se encontraron archivos descargados") ∧
    (download_playlist env id qp).resp =
      Resp.json 500 ("No se encontraron archivos descargados") := by
  have hca : collectAudio env = [] := by
    unfold collectAudio
    rw [filter_eq_nil_of_not env.walk _ hw]
    rfl
  have hq1 : qp.getD ("MP3_320") ∈ allowed_qualities := by simpa using hq
  unfold download_song download_album download_playlist
  simp [hq1, hid, hp, hca]

/-- Witness for `claim4_no_artifacts_is_500`: the provider wrote only a
cover image, quality absent, id `"123"`. -/
theorem claim4_witness :
    (download_song envNoAudio ("123") none).resp =
      Resp.json 500 ("No se encontró el archivo descargado") ∧
    (download_album envNoAudio ("123") none).resp =
      Resp.json 500 ("No se encontraron archivos descargados") ∧
    (download_playlist envNoAudio ("123") none).resp =
      Resp.json 500 ("No se encontraron archivos descargados") :=
  claim4_no_artifacts_is_500 envNoAudio ("123") none (by decide) (by decide) (by decide)
    (by decide)

/-- C9 (confirmed): when the quality parameter is outside the allowed
set and the id is also invalid, the 400 body returned is the
InvalidQuality one — each handler checks the quality before the id. -/
theorem claim9_quality_checked_before_id (q : String) (id : String) (env : Env)
    (hq : allowed_qualities.contains q = false) (_hid : pyIsDigit id = false) :
    (download_song env id (some q)).resp = Resp.json 400 invalidQualityMsg ∧
    (download_album env id (some q)).resp = Resp.json 400 invalidQualityMsg ∧
    (download_playlist env id (some q)).resp = Resp.json 400 invalidQualityMsg := by
  have hq1 : q ∉ allowed_qualities := by simpa using hq
  unfold download_song download_album download_playlist
  simp [hq1]

/-- Witness for `claim9_quality_checked_before_id`: quality `"ultra"`
and id `"abc"` are both invalid; the InvalidQuality body wins. -/
theorem claim9_witness :
    (download_song envOneSong ("abc") (some ("ultra"))).resp =
      Resp.json 400 invalidQualityMsg ∧
    (download_album envOneSong ("abc") (some ("ultra"))).resp =
      Resp.json 400 invalidQualityMsg ∧
    (download_playlist envOneSong ("abc") (some ("ultra"))).resp =
      Resp.json 400 invalidQualityMsg :=
  claim9_quality_checked_before_id ("ultra") ("abc") envOneSong (by decide) (by decide)

/-- C6 (confirmed): a successful album (resp. playlist) request answers
with the archive `album_{id}.zip` (resp. `playlist_{id}.zip`) created at
that fixed name inside the work directory, served as `application/zip`,
and the entries written into the archive are exactly the discovered audio
artifacts, each under its path relative to the work directory. -/
theorem claim6_zip_entries (env : Env) (id : String) (qp : Option String)
    (hq : allowed_qualities.contains (qp.getD ("MP3_320")) = true)
    (hid : pyIsDigit id = true)
    (hp : env.providerRaises = none)
    (hne : collectAudio env ≠ []) :
    (download_album env id qp).resp =
      Resp.file (pathJoin env.temp_dir (("album_") ++ id ++ (".zip")))
        (("album_") ++ id ++ (".zip")) ("application/zip") ∧
    (download_album env id qp).zipEntries =
      (env.walk.filter (fun e => isAudioName e.fname)).map
        (fun e => (pathJoin env.temp_dir e.rel, e.rel)) ∧
    (download_playlist env id qp).resp =
      Resp.file (pathJoin env.temp_dir (("playlist_") ++ id ++ (".zip")))
        (("playlist_") ++ id ++ (".zip")) ("application/zip") ∧
    (download_playlist env id qp).zipEntries =
      (env.walk.filter (fun e => isAudioName e.fname)).map
        (fun e => (pathJoin env.temp_dir e.rel, e.rel)) := by
  have hq1 : qp.getD ("MP3_320") ∈ allowed_qualities := by simpa using hq
  have hze : (collectAudio env).map (fun fp => (fp, relpath fp env.temp_dir)) =
      (env.walk.filter (fun e => isAudioName e.fname)).map
        (fun e => (pathJoin env.temp_dir e.rel, e.rel)) := by
    unfold collectAudio
    rw [List.map_map]
    have hfun : ((fun fp => (fp, relpath fp env.temp_dir)) ∘
        (fun e : WalkEntry => pathJoin env.temp_dir e.rel)) =
        (fun e : WalkEntry => (pathJoin env.temp_dir e.rel, e.rel)) := by
      funext e
      simp [Function.comp, relpath_pathJoin]
    rw [hfun]
  unfold download_album download_playlist
  simp [hq1, hid, hp, hne, hze]

/-- Witness for `claim6_zip_entries`: three audio files across nested
subdirectories plus a cover image, album id `"77"`, quality absent. -/
theorem claim6_witness :
    (download_album envAlbum ("77") none).resp =
      Resp.file (pathJoin envAlbum.temp_dir (("album_") ++ ("77") ++ (".zip")))
        (("album_") ++ ("77") ++ (".zip")) ("application/zip") ∧
    (download_album envAlbum ("77") none).zipEntries =
      (envAlbum.walk.filter (fun e => isAudioName e.fname)).map
        (fun e => (pathJoin envAlbum.temp_dir e.rel, e.rel)) ∧
    (download_playlist envAlbum ("77") none).resp =
      Resp.file (pathJoin envAlbum.temp_dir (("playlist_") ++ ("77") ++ (".zip")))
        (("playlist_") ++ ("77") ++ (".zip")) ("application/zip") ∧
    (download_playlist envAlbum ("77") none).zipEntries =
      (envAlbum.walk.filter (fun e => isAudioName e.fname)).map
        (fun e => (pathJoin envAlbum.temp_dir e.rel, e.rel)) :=
  claim6_zip_entries envAlbum ("77") none (by decide) (by decide) (by decide) (by decide)

/-- C7 (confirmed): on a successful track request the attachment name is
the sanitized base name of the first discovered artifact with extension
`flac` exactly when the requested quality is `FLAC` and `mp3` otherwise,
and the content type is `audio/flac` exactly when the requested quality
is `FLAC` and `audio/mpeg` otherwise — both chosen by the requested
quality, independent of the discovered file's actual extension. -/
theorem claim7_track_filename_and_mimetype (env : Env) (id : String)
    (qp : Option String) (f : String) (rest : List String)
    (hq : allowed_qualities.contains (qp.getD ("MP3_320")) = true)
    (hid : pyIsDigit id = true)
    (hp : env.providerRaises = none)
    (hw : collectAudio env = f :: rest)
    (hrn : env.renameRaises = none) :
    (download_song env id qp).resp =
      Resp.file
        (pathJoin env.temp_dir
          (sanitize_filename (splitext_root (basename f)) ++ (".") ++
            (if qp.getD ("MP3_320") = ("FLAC") then ("flac") else ("mp3"))))
        (sanitize_filename (splitext_root (basename f)) ++ (".") ++
          (if qp.getD ("MP3_320") = ("FLAC") then ("flac") else ("mp3")))
        (if qp.getD ("MP3_320") ≠ ("FLAC") then ("audio/mpeg") else ("audio/flac")) := by
  have hq1 : qp.getD ("MP3_320") ∈ allowed_qualities := by simpa using hq
  by_cases hc : f = pathJoin env.temp_dir
      (sanitize_filename (splitext_root (basename f)) ++ (".") ++
        (if qp.getD ("MP3_320") = ("FLAC") then ("flac") else ("mp3")))
  · unfold download_song
    simp only [hq1, hid, hp, hw]
    simp [← hc, hq1]
  · unfold download_song
    simp only [hq1, hid, hp, hw]
    simp [hc, hrn, hq1]

/-- Witness for `claim7_track_filename_and_mimetype`: the discovered
file is `Song: Live?.mp3` (extension `.mp3`), the requested quality is
`FLAC`; the attachment is named `Song_ Live_.flac` and served as
`audio/flac`. -/
theorem claim7_witness :
    (download_song envMessy ("123") (some ("FLAC"))).resp =
      Resp.file
        (pathJoin envMessy.temp_dir
          (sanitize_filename (splitext_root (basename (("/tmp/t3/Song: Live?.mp3")))) ++ (".") ++
            (if (some (("FLAC"))).getD ("MP3_320") = ("FLAC") then ("flac") else ("mp3"))))
        (sanitize_filename (splitext_root (basename (("/tmp/t3/Song: Live?.mp3")))) ++ (".") ++
          (if (some (("FLAC"))).getD ("MP3_320") = ("FLAC") then ("flac") else ("mp3")))
        (if (some (("FLAC"))).getD ("MP3_320") ≠ ("FLAC") then ("audio/mpeg")
          else ("audio/flac")) :=
  claim7_track_filename_and_mimetype envMessy ("123") (some ("FLAC"))
    ("/tmp/t3/Song: Live?.mp3") [] (by decide) (by decide) (by decide) (by decide) (by decide)

end Musifyx
